import Mathlib

/-!
# Verification of the document-processing service

A shallow embedding, in Lean 4, of the core logic of the document-processing
repository (`app/` — FastAPI routers, Celery tasks, and services), together
with theorems settling the frozen claims about its specification.

Conventions of the embedding:
* Python byte strings are `List Nat`; opaque page payloads are a type
  parameter `α` where only identity matters.
* Machine floats used as confidences/durations are embedded as `ℚ`
  (every value the code manipulates — `0.95`, `50.0`, progress
  percentages — is exactly representable).
* Fallible Python code is embedded as `Except`/`Option`-valued functions;
  calls to external collaborators (Azure, Redis, SGD HTTP, PyMuPDF) are
  parameters supplying the collaborator's outcome, while every branch the
  repository's own code takes on those outcomes is translated from source.
-/

namespace DocProc

/-! ## Data model — `app/models.py` -/

/-- Embeds `app/models.py` lines 7-10: the closed `DocumentType` enumeration. -/
inductive DocumentType
  | INVOICE
  | TRANSPORT
  | PACKLIST
deriving DecidableEq, Repr

/-- Embeds `DocumentType.value` — the string value of each enum member. -/
def documentTypeValue : DocumentType → String
  | .INVOICE => "invoice"
  | .TRANSPORT => "transport"
  | .PACKLIST => "packlist"

/-- Embeds `app/models.py` lines 12-15: `ClassificationResult`. -/
structure ClassificationResult where
  page_number : Nat
  document_type : DocumentType
  confidence : ℚ
deriving DecidableEq, Repr

/-- Embeds `app/models.py` lines 17-20: `ExtractionResult`.  The `extracted_data`
dict is embedded as an association list. -/
structure ExtractionResult where
  document_type : DocumentType
  extracted_data : List (String × String)
  confidence : ℚ
deriving DecidableEq, Repr

/-- Embeds `app/models.py` lines 22-26: `ProcessedDocument`. -/
structure ProcessedDocument where
  document_id : String
  classification : List ClassificationResult
  extraction : List ExtractionResult
  processing_time : ℚ
deriving DecidableEq, Repr

/-- Embeds `app/models.py` lines 52-55: `ProcessingStatus`. -/
inductive ProcessingStatus
  | SUCCESS
  | FAILED
  | PARTIAL
deriving DecidableEq, Repr

/-- Embeds `app/models.py` lines 57-61: `DocumentError`. -/
structure DocumentError where
  document_id : String
  error_message : String
  error_type : String
deriving DecidableEq, Repr

/-- Embeds `app/models.py` lines 63-70: `ProcessingMetadata`. -/
structure ProcessingMetadata where
  total_documentos : Nat
  procesados : Nat
  fallidos : Nat
  tiempo_total : ℚ
  modelos_usados : List String
  cached : Bool
deriving DecidableEq, Repr

/-- Embeds `app/models.py` lines 72-77: `ProcessingResult`. -/
structure ProcessingResult where
  exitosos : List ProcessedDocument
  fallidos : List DocumentError
  metadata : ProcessingMetadata
  status : ProcessingStatus
deriving DecidableEq, Repr

/-! ## Grouping — `app/services/document_processor.py`,
`DocumentProcessor._group_consecutive_pages` (lines 72-93)

The Python loop carries `current_type`/`current_pages` and walks
`classifications[1:]` in lockstep with `pages[1:]` (it reads `pages[i]` for
`i in range(1, len(classifications))`; the lockstep is embedded as a walk
over `cs.zip ps`, which agrees with the source whenever
`len(pages) = len(classifications)` — the only situation the callers create
and the only one the claims quantify over; on a longer classification list
the source raises `IndexError` where the zip truncates). -/

/-- The loop body of `_group_consecutive_pages`: `currentType`/`currentPages`
are the `current_type`/`current_pages` accumulators, the list argument is the
remaining `(classifications[i], pages[i])` pairs, and the final
`grouped.append((current_type, current_pages))` is the base case. -/
def groupGo {α : Type} (currentType : DocumentType) (currentPages : List α) :
    List (ClassificationResult × α) → List (DocumentType × List α)
  | [] => [(currentType, currentPages)]
  | (c, p) :: rest =>
    if c.document_type = currentType then
      groupGo currentType (currentPages ++ [p]) rest
    else
      (currentType, currentPages) :: groupGo c.document_type [p] rest

/-- Embeds `_group_consecutive_pages(pages, classifications)`.  Empty
classifications yield `[]` (line 74-75); otherwise the loop starts from
`classifications[0].document_type` and `[pages[0]]` (lines 78-79). -/
def groupConsecutivePages {α : Type} (pages : List α)
    (classifications : List ClassificationResult) : List (DocumentType × List α) :=
  match classifications, pages with
  | [], _ => []
  | _ :: _, [] => []
  | c :: cs, p :: ps => groupGo c.document_type [p] (cs.zip ps)

/-! ## Classifier / extractor adapter — `app/services/azure_service.py` -/

/-- The outcome of one call to the external Azure classification capability
(`poller.result()` at `azure_service.py` line 23), as observed by
`classify_document`:
* `error`      — any exception from the call (the `except` at line 41);
* `noDocuments`— a response whose `documents` list is empty (line 39);
* `document`   — the top document's `doc_type` string and `confidence`. -/
inductive ClassifyOutcome
  | error (msg : String)
  | noDocuments
  | document (docType : String) (confidence : ℚ)
deriving DecidableEq, Repr

/-- Embeds `azure_service.py` lines 31-35: the `type_mapping` dict. -/
def typeMapping : List (String × DocumentType) :=
  [("invoice", DocumentType.INVOICE),
   ("transport", DocumentType.TRANSPORT),
   ("packlist", DocumentType.PACKLIST)]

/-- Embeds `AzureDocumentService.classify_document` (lines 16-43): maps the external
label through `type_mapping.get(doc_type, DocumentType.INVOICE)`; an empty
`documents` list returns `DocumentType.INVOICE` (line 39); any exception is
caught and returns `DocumentType.INVOICE` (line 43).  Totality of this
function is the embedding of "the adapter never raises". -/
def classify_document : ClassifyOutcome → DocumentType
  | .error _ => DocumentType.INVOICE
  | .noDocuments => DocumentType.INVOICE
  | .document dt _ => ((typeMapping.lookup dt).getD DocumentType.INVOICE)

/-- Embeds `azure_service.py` lines 48-54: extraction model selection by type. -/
def extractionModelName : DocumentType → String
  | .TRANSPORT => "transport_01"
  | _ => "inovice_01"

/-- The outcome of one call to the external Azure analysis capability as
observed by `extract_data`: an exception, or a response whose top document
has the given fields (`field.value` embedded as `Option String`, `None`
values included). -/
inductive ExtractOutcome
  | error (msg : String)
  | noDocuments
  | fields (fs : List (String × Option String))
deriving DecidableEq, Repr

/-- Embeds `AzureDocumentService.extract_data` (lines 45-75): selects the model by
document type, calls the external capability, keeps the fields whose value
is not `None` (lines 65-69), and returns `{}` on a missing document or on
any exception (lines 73-75).  `analyze : model name → pdf bytes → outcome`
supplies the collaborator's behaviour. -/
def extract_data {β : Type} (analyze : String → β → ExtractOutcome)
    (pdfBytes : β) (documentType : DocumentType) : List (String × String) :=
  match analyze (extractionModelName documentType) pdfBytes with
  | .error _ => []
  | .noDocuments => []
  | .fields fs => fs.filterMap (fun nv => nv.2.map (fun v => (nv.1, v)))

/-! ## The document pipeline — `DocumentProcessor.process_document`
(`document_processor.py` lines 16-70)

Collaborator parameters: `separate` stands for
`PDFProcessor.separate_pages` (PyMuPDF), `merge` for
`PDFProcessor.merge_pages`, `classifyPage` for the Azure classification
round-trip on one page, `analyze` for the Azure analysis round-trip.
`elapsed` stands for the wall-clock duration measured at lines 18/62. -/

/-- Embeds `process_document(pdf_bytes, document_id)`: separate pages, classify
each with hard-coded `confidence=0.95` (lines 28-35), group
(`_group_consecutive_pages`, line 40), then for each non-empty group merge
its pages and extract with hard-coded `confidence=0.95` (lines 46-59). -/
def process_document {α β : Type} (separate : List α) (merge : List α → β)
    (classifyPage : α → ClassifyOutcome) (analyze : String → β → ExtractOutcome)
    (documentId : String) (elapsed : ℚ) : ProcessedDocument :=
  let classifications := (separate.enum).map (fun pi =>
    { page_number := pi.1 + 1
      document_type := classify_document (classifyPage pi.2)
      confidence := 95/100 : ClassificationResult })
  let grouped := groupConsecutivePages separate classifications
  let extractions := grouped.filterMap (fun g =>
    if g.2.isEmpty then none
    else some { document_type := g.1
                extracted_data := extract_data analyze (merge g.2) g.1
                confidence := 95/100 : ExtractionResult })
  { document_id := documentId
    classification := classifications
    extraction := extractions
    processing_time := elapsed }

/-! ## Attribute dispatch on `DocumentProcessor`
(`app/services/document_processor.py` lines 11-93)

The class body of `DocumentProcessor` defines exactly `__init__`,
`process_document` and `_group_consecutive_pages`; Python attribute access
on any other name raises `AttributeError`. -/

/-- A Python exception as observed by the `except` handlers of the batch
loops. -/
inductive PyError
  | attributeError (cls attr : String)
  | valueError (msg : String)
deriving DecidableEq, Repr

/-- Embeds `str(e)` for the exceptions above.  (Python's `AttributeError` text
wraps the two names in single quotes; the quotes are elided here — no claim
depends on the exact message text.) -/
def pyErrorMessage : PyError → String
  | .attributeError cls attr => cls ++ " object has no attribute " ++ attr
  | .valueError msg => msg

/-- The attribute names the class body of `DocumentProcessor` defines
(`document_processor.py` lines 12, 16, 72). -/
def documentProcessorMethods : List String :=
  ["__init__", "process_document", "_group_consecutive_pages"]

/-- Embeds `hasattr(DocumentProcessor(), name)` restricted to the class body. -/
def documentProcessorHasAttr (name : String) : Bool :=
  documentProcessorMethods.contains name

/-- Embeds `processor.clasificar_y_procesar(pdf_bytes, doc_name)` as written at
`routers/sgd.py` line 247, `routers/individual.py` lines 25/44 and
`tasks/celery_tasks.py` lines 80/159: attribute lookup precedes the call,
and `DocumentProcessor` defines no such attribute, so the expression raises
`AttributeError` before any processing happens.  The `then` branch is
provably unreachable (`absurd`): the call can never return a
`ProcessedDocument`. -/
def callClasificarYProcesar (pdfBytes : List Nat) (docId : String) :
    Except PyError ProcessedDocument :=
  if h : documentProcessorHasAttr "clasificar_y_procesar" = true then
    absurd h (by decide)
  else
    .error (.attributeError "DocumentProcessor" "clasificar_y_procesar")

/-- Embeds `processor.clasificar(pdf_bytes, doc_name)` as written at
`routers/sgd.py` line 139 — likewise an attribute absent from
`DocumentProcessor`. -/
def callClasificar (pdfBytes : List Nat) (docId : String) :
    Except PyError (List ClassificationResult) :=
  if h : documentProcessorHasAttr "clasificar" = true then
    absurd h (by decide)
  else
    .error (.attributeError "DocumentProcessor" "clasificar")

/-! ## The batch loop — `routers/sgd.py` `procesar_despacho`
(lines 187-299) and `tasks/celery_tasks.py` `process_sgd_documents`
(lines 92-229)

The two loops are line-for-line the same logic (the Celery one appends
plain dicts where the router appends pydantic models); one embedding covers
both.  An SGD document (one artifact of the listing) is a JSON object,
embedded as an association list `String → String`; `decode` stands for
`SGDService.decode_document` (base64 + size validation — its exceptions are
`ValueError`s that land in the same per-document `except` as everything
else). -/

/-- One artifact as returned by the SGD listing. -/
abbrev SgdDoc := List (String × String)

/-- Embeds `routers/sgd.py` line 225 (and 117, 137, celery 137): the ordered list
of accepted content field names. -/
def contentFieldCandidates : List String :=
  ["documento", "content", "base64", "data"]

/-- Embeds `doc.get('nombre', doc.get('name', doc.get('filename', f"doc_{i}")))`
(`routers/sgd.py` line 220). -/
def docDisplayName (doc : SgdDoc) (i : Nat) : String :=
  ((doc.lookup "nombre").orElse (fun _ =>
    (doc.lookup "name").orElse (fun _ =>
      doc.lookup "filename"))).getD ("doc_" ++ toString i)

/-- The outcome of one iteration of the per-document loop. -/
inductive DocOutcome
  | ok (d : ProcessedDocument)
  | fail (e : DocumentError)
deriving DecidableEq, Repr

/-- The body of the per-document loop (`routers/sgd.py` lines 219-261):
content-field discovery (`MISSING_CONTENT` when no candidate is present),
decode (`DECODE_ERROR` when it returns falsy bytes; a `ValueError` it
raises falls through to the catch-all), then
`processor.clasificar_y_procesar` with every raised exception recorded as
a `PROCESSING_ERROR` `DocumentError` (lines 254-261). -/
def processOneDoc (decode : String → Except PyError (List Nat))
    (i : Nat) (doc : SgdDoc) : DocOutcome :=
  let name := docDisplayName doc i
  match contentFieldCandidates.findSome? doc.lookup with
  | none => .fail ⟨name, "Documento sin contenido", "MISSING_CONTENT"⟩
  | some raw =>
    match decode raw with
    | .error e => .fail ⟨name, pyErrorMessage e, "PROCESSING_ERROR"⟩
    | .ok pdfBytes =>
      if pdfBytes.isEmpty then
        .fail ⟨name, "Error decodificando documento", "DECODE_ERROR"⟩
      else
        match callClasificarYProcesar pdfBytes name with
        | .error e => .fail ⟨name, pyErrorMessage e, "PROCESSING_ERROR"⟩
        | .ok r => .ok r

/-- The `for i, doc in enumerate(documents)` loop (lines 219-261),
collecting `processed_documents` and `failed_documents` in input order. -/
def runBatchGo (decode : String → Except PyError (List Nat)) :
    Nat → List SgdDoc → List ProcessedDocument × List DocumentError
  | _, [] => ([], [])
  | i, d :: ds =>
    let rest := runBatchGo decode (i + 1) ds
    match processOneDoc decode i d with
    | .ok r => (r :: rest.1, rest.2)
    | .fail e => (rest.1, e :: rest.2)

/-- Embeds `routers/sgd.py` lines 265-271 (and celery 176-182): the aggregate
status from the two list lengths. -/
def computeStatus (procesados fallidos : Nat) : ProcessingStatus :=
  if fallidos = 0 then .SUCCESS
  else if procesados = 0 then .FAILED
  else .PARTIAL

/-- The batch orchestrator body after the listing fetch: run the loop, then
assemble `ProcessingMetadata` (lines 273-280) and `ProcessingResult`
(lines 282-287).  `modelos_usados` is a Python `set` accumulated from the
successes; it is embedded as a deduplicated list (its iteration order is
unspecified in the source and no claim touches it).  `elapsed` and
`fromCache` stand for the measured wall-clock time and the listing's cache
flag. -/
def procesarDespachoBatch (decode : String → Except PyError (List Nat))
    (docs : List SgdDoc) (elapsed : ℚ) (fromCache : Bool) : ProcessingResult :=
  let pf := runBatchGo decode 0 docs
  { exitosos := pf.1
    fallidos := pf.2
    metadata :=
      { total_documentos := docs.length
        procesados := pf.1.length
        fallidos := pf.2.length
        tiempo_total := elapsed
        modelos_usados :=
          ((pf.1.flatMap (fun r => r.extraction)).map
            (fun e => "extraction_" ++ documentTypeValue e.document_type)).dedup
        cached := fromCache }
    status := computeStatus pf.1.length pf.2.length }

/-! ## Cache layer — `app/services/cache_service.py`

The Redis store is embedded as an association list of key/value pairs
(TTLs play no role in any claim; `setex` overwrites).  Each service method
wraps its whole body in `try/except`; the embedding therefore takes the
underlying store round-trip's outcome as a parameter and translates every
branch of the handler. -/

/-- The key/value content of the Redis store. -/
abbrev CacheStore := List (String × String)

/-- Embeds `redis.setex(key, ttl, value)` on the store content: insert,
overwriting any previous entry for the key. -/
def cacheSetex (store : CacheStore) (key value : String) : CacheStore :=
  (key, value) :: store.filter (fun kv => kv.1 ≠ key)

/-- Key lookup in the store content (`redis.get`). -/
def cacheLookup (store : CacheStore) (key : String) : Option String :=
  (store.find? (fun kv => kv.1 = key)).map (fun kv => kv.2)

/-- Embeds `CacheService._generate_key` (lines 17-19): `f"cache:{prefix}:{identifier}"`. -/
def generateKey (ns identifier : String) : String :=
  "cache:" ++ ns ++ ":" ++ identifier

/-- The key used by `get_processing_result`/`set_processing_result`
(lines 64-67, 84-87): `cache:result:{despacho_id}` or
`cache:result:{despacho_id}:{document_id}`. -/
def resultCacheKey (despachoId : String) (documentId : Option String) : String :=
  match documentId with
  | some docId => generateKey "result" (despachoId ++ ":" ++ docId)
  | none => generateKey "result" despachoId

/-- Embeds `CacheService.get_despacho_documents` (lines 21-37).  `attempt` bundles
the `redis.get` + `json.loads` round-trip: `.error` is any exception (store
unreachable, corrupt payload — both land in the same `except`, line 35),
`.ok none` a missing key, `.ok (some docs)` a hit carrying the payload's
`documents` list.  On error the method logs and returns `None` — the same
value as a miss. -/
def cacheGetDespachoDocuments
    (attempt : Except String (Option (List SgdDoc))) : Option (List SgdDoc) :=
  match attempt with
  | .error _ => none
  | .ok none => none
  | .ok (some docs) => some docs

/-- Embeds `CacheService.get_processing_result` (lines 61-79), same shape with an
opaque serialized payload. -/
def cacheGetProcessingResult
    (attempt : Except String (Option String)) : Option String :=
  match attempt with
  | .error _ => none
  | .ok none => none
  | .ok (some payload) => some payload

/-- Embeds `CacheService.set_processing_result` (lines 81-97) as a transform of
the store content: `storeUp` says whether the `setex` round-trip succeeded;
on failure the exception is logged and swallowed (line 96-97), the store is
unchanged, and the method still returns normally. -/
def cacheSetProcessingResult (storeUp : Bool) (store : CacheStore)
    (despachoId : String) (documentId : Option String) (ser : String) : CacheStore :=
  if storeUp then cacheSetex store (resultCacheKey despachoId documentId) ser
  else store

/-- Embeds `CacheService.get_ttl` (lines 116-124): `redis.ttl` outcome (an `Int`;
Redis returns `-2`/`-1` for a missing key / no expiry) mapped through
`ttl if ttl > 0 else 0`, and `0` on any exception. -/
def cacheGetTTL (attempt : Except String Int) : Int :=
  match attempt with
  | .error _ => 0
  | .ok t => if t > 0 then t else 0

/-- Redis `SCAN MATCH` with a pattern of the shape `stem*` — the only shape
`invalidate_despacho` produces (no other glob metacharacter appears in its
patterns; a `*` matches any suffix): the keys matched are exactly those
having `stem` as a prefix. -/
def matchesStarPattern (stem key : String) : Bool :=
  stem.data.isPrefixOf key.data

/-- The success path of `CacheService.invalidate_despacho` (lines 99-114)
on the store content: delete the listing key `cache:despacho:{id}`
(lines 103-104), then delete every key matching the glob
`cache:result:{id}*` (lines 107-109). -/
def invalidateDespachoStore (store : CacheStore) (despachoId : String) : CacheStore :=
  ((store.filter (fun kv => kv.1 ≠ generateKey "despacho" despachoId)).filter
    (fun kv => ¬ matchesStarPattern (generateKey "result" despachoId) kv.1))

/-- Embeds `CacheService.invalidate_despacho` with its `try/except`: on a store
failure (`storeUp = false`) the exception is logged and swallowed and the
method returns normally (the store content is modelled as unchanged). -/
def cacheInvalidateDespacho (storeUp : Bool) (store : CacheStore)
    (despachoId : String) : CacheStore :=
  if storeUp then invalidateDespachoStore store despachoId
  else store

/-! ## SGD document-source fetch — `app/services/sgd_service.py` -/

/-- Embeds `SGDService.get_despacho_documents` (lines 49-119) from the cache's
point of view: with `use_cache`, a cache hit returns `(docs, True)`
(lines 59-63); otherwise the live fetch runs and returns `(docs, False)`
(its own error handling is the retry model below; here its outcome is the
parameter `live`). -/
def sgdGetDespachoDocuments (useCache : Bool)
    (cacheAttempt : Except String (Option (List SgdDoc)))
    (live : Except PyError (List SgdDoc)) :
    Except PyError (List SgdDoc × Bool) :=
  if useCache then
    match cacheGetDespachoDocuments cacheAttempt with
    | some docs => .ok (docs, true)
    | none => live.map (fun docs => (docs, false))
  else live.map (fun docs => (docs, false))

/-! ## Retry / backoff — `SGDService.__init__` (lines 28-45) and the
`except` ladder of `get_despacho_documents` (lines 103-119)

The session mounts an `HTTPAdapter` with
`Retry(total=3, backoff_factor=1, status_forcelist=[429,500,502,503,504])`.
The retry loop itself lives in `urllib3`, outside this repository;
its mechanics are modelled from the spec ("retried with exponential
backoff up to a fixed maximum attempt count"), while every configuration
value below (`transientStatuses`, `sgdMaxRetries`, the backoff factor) is
taken from `SGDService.__init__` and `config.py` (default
`SGD_MAX_RETRIES=3`). -/

/-- Embeds `status_forcelist=[429, 500, 502, 503, 504]` (`sgd_service.py` line 34). -/
def transientStatuses : List Nat := [429, 500, 502, 503, 504]

/-- Embeds `settings.sgd_max_retries` — `config.py` line 24, default `3`. -/
def sgdMaxRetries : Nat := 3

/-- The outcome of one HTTP request attempt against the SGD backend. -/
inductive AttemptOutcome
  | success (docs : List SgdDoc)
  | timeout
  | connError
  | httpStatus (code : Nat)
deriving DecidableEq, Repr

/-- The failure classes the retry configuration treats as transient:
timeouts, connection errors, and the `status_forcelist` statuses. -/
def isTransientOutcome : AttemptOutcome → Bool
  | .timeout => true
  | .connError => true
  | .httpStatus code => transientStatuses.contains code
  | .success _ => false

/-- Modelled from the spec: the `urllib3` retry loop (external library; only
its configuration lives in this repository).  `attempts j` is the outcome of
the `j`-th request; a transient outcome consumes one retry, any other
outcome is returned at once, and an exhausted budget surrenders the last
transient outcome.  The result pairs the number of requests issued with the
final outcome; `fuel` is the remaining retry budget (`Retry(total=...)`). -/
def runWithRetries (attempts : Nat → AttemptOutcome) (i : Nat) :
    Nat → Nat × AttemptOutcome
  | 0 => (i + 1, attempts i)
  | fuel + 1 =>
    let o := attempts i
    if isTransientOutcome o then runWithRetries attempts (i + 1) fuel
    else (i + 1, o)

/-- Modelled from the spec: `urllib3`'s exponential backoff with
`backoff_factor=1` (`sgd_service.py` line 33) — the wait before the `k`-th
retry is `backoff_factor * 2 ^ (k - 1)` seconds. -/
def backoffSeconds (backoffFactor : ℚ) (k : Nat) : ℚ :=
  backoffFactor * 2 ^ (k - 1)

/-- The error `get_despacho_documents` surfaces for a given final outcome. -/
inductive FetchError
  | timeout
  | connectionError
  | notFound (despachoId : String)
  | httpError (code : Nat)
deriving DecidableEq, Repr

/-- The live-fetch step of `get_despacho_documents` (lines 66-119): run the
session request (with the mounted retry strategy), then translate the final
outcome through the `except` ladder — a 404 `HTTPError` becomes
`ValueError(f"Despacho {despacho_id} no encontrado")` (lines 109-112,
embedded as `FetchError.notFound`), any other HTTP error re-raises, and an
exhausted transient failure re-raises as the corresponding exception. -/
def sgdFetch (despachoId : String) (attempts : Nat → AttemptOutcome) :
    Except FetchError (List SgdDoc) :=
  match (runWithRetries attempts 0 sgdMaxRetries).2 with
  | .success docs => .ok docs
  | .timeout => .error .timeout
  | .connError => .error .connectionError
  | .httpStatus code =>
    if code = 404 then .error (.notFound despachoId)
    else .error (.httpError code)

/-! ## Async task progress — `app/tasks/celery_tasks.py` and the poller
`obtener_estado_tarea` (`routers/sgd.py` lines 324-364)

A job's externally visible life is embedded as a function from poll time to
the task's phase: a list `pre` of progress values published through
`update_state(state='PROCESSING', meta={'progress': ...})`, followed
forever by the terminal phase.  The poller maps a phase to the progress
value it reports. -/

/-- The phase of a Celery task as the poller distinguishes them
(`task_result.ready()` / `successful()`). -/
inductive TaskPhase
  | processing (progress : ℚ)
  | succeeded
  | failed
deriving DecidableEq, Repr

/-- Embeds `obtener_estado_tarea` (`routers/sgd.py` lines 336-360): a completed
task reports `progress=100.0`, a failed one `progress=0.0`, and a running
one the `progress` field of its metadata. -/
def polledProgress : TaskPhase → ℚ
  | .processing p => p
  | .succeeded => 100
  | .failed => 0

/-- The progress values `process_sgd_documents` publishes for a listing of
`n` documents: `0` before the loop (`celery_tasks.py` line 99), then
`((i + 1) / total) * 100` at the top of each iteration (line 122). -/
def sgdPublishedProgress (n : Nat) : List ℚ :=
  0 :: (List.range n).map (fun i => (((i + 1 : ℕ) : ℚ) / (n : ℚ)) * 100)

/-- The progress values `process_individual_document` publishes:
`0`, `50`, `100` (`celery_tasks.py` lines 72, 78, 83). -/
def individualPublishedProgress : List ℚ := [0, 50, 100]

/-- The externally visible phase of a job at poll time `t`: the `t`-th
published processing update while they last, then the terminal phase
forever (a Celery result backend holds the terminal state from then on). -/
def jobTrace (pre : List ℚ) (terminal : TaskPhase) (t : Nat) : TaskPhase :=
  if h : t < pre.length then .processing (pre.get ⟨t, h⟩) else terminal

/-! ## Result persistence — `routers/sgd.py` lines 289-291 and
`celery_tasks.py` lines 199-201 -/

/-- The persistence step after a batch: `if status != FAILED:
cache_service.set_processing_result(despacho_id, result.dict())` on a
healthy store.  `ser` stands for the serialized `result.dict()`. -/
def persistBatchResult (despachoId : String) (result : ProcessingResult)
    (ser : String) (store : CacheStore) : CacheStore :=
  if result.status ≠ ProcessingStatus.FAILED then
    cacheSetProcessingResult true store despachoId none ser
  else store

/-! ## Lemmas about the grouping loop -/

/-- The pages of the groups emitted by the loop, concatenated in order, are
the accumulator followed by the remaining pages. -/
theorem groupGo_join {α : Type} (rest : List (ClassificationResult × α)) :
    ∀ (ct : DocumentType) (cp : List α),
      ((groupGo ct cp rest).map Prod.snd).flatten = cp ++ rest.map Prod.snd := by
  induction rest with
  | nil => intro ct cp; simp [groupGo]
  | cons hd tl ih =>
    intro ct cp
    obtain ⟨c, p⟩ := hd
    by_cases h : c.document_type = ct
    · simp only [groupGo, if_pos h, ih, List.map_cons]
      simp
    · simp only [groupGo, if_neg h, List.map_cons, List.flatten_cons, ih]
      simp

/-- The first group the loop emits carries the accumulator's type. -/
theorem groupGo_head_fst {α : Type} (rest : List (ClassificationResult × α)) :
    ∀ (ct : DocumentType) (cp : List α),
      ((groupGo ct cp rest).map Prod.fst).head? = some ct := by
  induction rest with
  | nil => intro ct cp; simp [groupGo]
  | cons hd tl ih =>
    intro ct cp
    obtain ⟨c, p⟩ := hd
    by_cases h : c.document_type = ct
    · simp only [groupGo, if_pos h, ih]
    · simp only [groupGo, if_neg h, List.map_cons, List.head?]

/-- Adjacent groups emitted by the loop have different types. -/
theorem groupGo_chain_ne {α : Type} (rest : List (ClassificationResult × α)) :
    ∀ (ct : DocumentType) (cp : List α),
      List.Chain' (fun a b => a ≠ b) ((groupGo ct cp rest).map Prod.fst) := by
  induction rest with
  | nil => intro ct cp; simp [groupGo]
  | cons hd tl ih =>
    intro ct cp
    obtain ⟨c, p⟩ := hd
    by_cases h : c.document_type = ct
    · simp only [groupGo, if_pos h]
      exact ih ct (cp ++ [p])
    · simp only [groupGo, if_neg h, List.map_cons]
      refine List.chain'_cons'.mpr ⟨?_, ih c.document_type [p]⟩
      intro y hy
      rw [groupGo_head_fst] at hy
      rw [Option.mem_def, Option.some_inj] at hy
      rw [← hy]
      exact fun hcontra => h hcontra.symm

/-- Every group emitted by the loop has at least one page, provided the
accumulator is non-empty (it always is: it starts as `[pages[0]]` and every
reset starts it as `[pages[i]]`). -/
theorem groupGo_snd_ne_nil {α : Type} (rest : List (ClassificationResult × α)) :
    ∀ (ct : DocumentType) (cp : List α), cp ≠ [] →
      ∀ g ∈ groupGo ct cp rest, g.2 ≠ [] := by
  induction rest with
  | nil =>
    intro ct cp hcp g hg
    simp only [groupGo, List.mem_singleton] at hg
    rw [hg]
    exact hcp
  | cons hd tl ih =>
    intro ct cp hcp g hg
    obtain ⟨c, p⟩ := hd
    by_cases h : c.document_type = ct
    · simp only [groupGo, if_pos h] at hg
      exact ih ct (cp ++ [p]) (by simp) g hg
    · simp only [groupGo, if_neg h, List.mem_cons] at hg
      rcases hg with hg | hg
      · rw [hg]; exact hcp
      · exact ih c.document_type [p] (by simp) g hg

/-- Claim C1.  For every non-empty list of pages with one classification per
page (matching 1-based ordinals), `_group_consecutive_pages` returns groups
whose pages, concatenated in group order, reproduce the original page
sequence exactly; no two adjacent groups share a `DocumentType`; and every
group contains at least one page. -/
theorem claim_C1_grouping_partition {α : Type} (pages : List α)
    (classifications : List ClassificationResult)
    (hne : pages ≠ [])
    (hlen : classifications.length = pages.length)
    (hord : ∀ i (h : i < classifications.length),
      (classifications.get ⟨i, h⟩).page_number = i + 1) :
    ((groupConsecutivePages pages classifications).map Prod.snd).flatten = pages ∧
    List.Chain' (fun a b => a ≠ b)
      ((groupConsecutivePages pages classifications).map Prod.fst) ∧
    ∀ g ∈ groupConsecutivePages pages classifications, g.2 ≠ [] := by
  match pages, classifications with
  | [], _ => exact absurd rfl hne
  | p :: ps, [] => exact absurd hlen (by simp)
  | p :: ps, c :: cs =>
    have hl : cs.length = ps.length := by
      simpa using hlen
    refine ⟨?_, groupGo_chain_ne _ _ _, groupGo_snd_ne_nil _ _ _ (by simp)⟩
    show ((groupGo c.document_type [p] (cs.zip ps)).map Prod.snd).flatten = p :: ps
    rw [groupGo_join, List.map_snd_zip cs ps (le_of_eq hl.symm)]
    simp

/-- Witness for C1: the spec's scenario 1 — a 3-page artifact classified
`[INVOICE, INVOICE, TRANSPORT]` satisfies the hypotheses, and every group
returned is non-empty. -/
theorem claim_C1_witness :
    (["p1", "p2", "p3"] : List String) ≠ [] ∧
    ∀ g ∈ groupConsecutivePages ["p1", "p2", "p3"]
        [⟨1, DocumentType.INVOICE, 95/100⟩, ⟨2, DocumentType.INVOICE, 95/100⟩,
         ⟨3, DocumentType.TRANSPORT, 95/100⟩], g.2 ≠ [] :=
  ⟨by decide,
   (claim_C1_grouping_partition ["p1", "p2", "p3"]
      [⟨1, DocumentType.INVOICE, 95/100⟩, ⟨2, DocumentType.INVOICE, 95/100⟩,
       ⟨3, DocumentType.TRANSPORT, 95/100⟩]
      (by decide) (by decide) (by decide)).2.2⟩

/-! ## Lemmas about the batch loop -/

/-- Attribute lookup of `clasificar_y_procesar` on `DocumentProcessor`
raises `AttributeError`. -/
theorem callClasificarYProcesar_error (pdfBytes : List Nat) (docId : String) :
    callClasificarYProcesar pdfBytes docId =
      .error (.attributeError "DocumentProcessor" "clasificar_y_procesar") := rfl

/-- Attribute lookup of `clasificar` on `DocumentProcessor` raises
`AttributeError`. -/
theorem callClasificar_error (pdfBytes : List Nat) (docId : String) :
    callClasificar pdfBytes docId =
      .error (.attributeError "DocumentProcessor" "clasificar") := rfl

/-- No iteration of the per-document loop can produce a success. -/
theorem processOneDoc_ne_ok (decode : String → Except PyError (List Nat))
    (i : Nat) (doc : SgdDoc) (r : ProcessedDocument) :
    processOneDoc decode i doc ≠ .ok r := by
  unfold processOneDoc
  cases hf : contentFieldCandidates.findSome? doc.lookup with
  | none => simp
  | some raw =>
    cases hd : decode raw with
    | error e => simp [hd]
    | ok bs =>
      by_cases hb : bs = []
      · simp [hd, hb]
      · simp [hd, hb, callClasificarYProcesar_error, List.isEmpty_iff]

/-- The `processed_documents` list of the batch loop is always empty. -/
theorem runBatchGo_fst_nil (decode : String → Except PyError (List Nat)) :
    ∀ (i : Nat) (docs : List SgdDoc), (runBatchGo decode i docs).1 = [] := by
  intro i docs
  induction docs generalizing i with
  | nil => rfl
  | cons d ds ih =>
    unfold runBatchGo
    cases ho : processOneDoc decode i d with
    | ok r => exact absurd ho (processOneDoc_ne_ok decode i d r)
    | fail e => simpa using ih (i + 1)

/-- Every document contributes exactly one entry: the two output lists'
lengths sum to the input length. -/
theorem runBatchGo_length (decode : String → Except PyError (List Nat)) :
    ∀ (i : Nat) (docs : List SgdDoc),
      (runBatchGo decode i docs).1.length + (runBatchGo decode i docs).2.length
        = docs.length := by
  intro i docs
  induction docs generalizing i with
  | nil => rfl
  | cons d ds ih =>
    unfold runBatchGo
    cases ho : processOneDoc decode i d with
    | ok r =>
      have := ih (i + 1)
      simp only [List.length_cons]
      omega
    | fail e =>
      have := ih (i + 1)
      simp only [List.length_cons]
      omega

/-- Projection: the successes of the assembled batch result are the loop's
first output. -/
theorem procesarDespachoBatch_exitosos (decode : String → Except PyError (List Nat))
    (docs : List SgdDoc) (elapsed : ℚ) (fromCache : Bool) :
    (procesarDespachoBatch decode docs elapsed fromCache).exitosos
      = (runBatchGo decode 0 docs).1 := rfl

/-- Projection: the failures of the assembled batch result are the loop's
second output. -/
theorem procesarDespachoBatch_fallidos (decode : String → Except PyError (List Nat))
    (docs : List SgdDoc) (elapsed : ℚ) (fromCache : Bool) :
    (procesarDespachoBatch decode docs elapsed fromCache).fallidos
      = (runBatchGo decode 0 docs).2 := rfl

/-- Projection: the status of the assembled batch result is computed from
the two lengths. -/
theorem procesarDespachoBatch_status (decode : String → Except PyError (List Nat))
    (docs : List SgdDoc) (elapsed : ℚ) (fromCache : Bool) :
    (procesarDespachoBatch decode docs elapsed fromCache).status
      = computeStatus (runBatchGo decode 0 docs).1.length
          (runBatchGo decode 0 docs).2.length := rfl

/-- Status characterization: `SUCCESS` exactly when there are no failures. -/
theorem computeStatus_success_iff (s f : Nat) :
    computeStatus s f = .SUCCESS ↔ f = 0 := by
  unfold computeStatus
  by_cases hf : f = 0 <;> by_cases hs : s = 0 <;> simp [hf, hs]

/-- Status characterization: when at least one document was fetched,
`FAILED` exactly when there are no successes. -/
theorem computeStatus_failed_iff (s f : Nat) (h : ¬(s = 0 ∧ f = 0)) :
    computeStatus s f = .FAILED ↔ s = 0 := by
  unfold computeStatus
  by_cases hf : f = 0 <;> by_cases hs : s = 0 <;> simp [hf, hs] <;> tauto

/-- Status characterization: both lists non-empty means `PARTIAL`. -/
theorem computeStatus_partial (s f : Nat) (hs : s ≠ 0) (hf : f ≠ 0) :
    computeStatus s f = .PARTIAL := by
  unfold computeStatus
  simp [hs, hf]

/-- Claim C2.  `DocumentProcessor` defines neither `clasificar_y_procesar`
(called by `procesar_despacho`, `process_sgd_documents`,
`process_individual_document` and the individual endpoints) nor
`clasificar` (called by the classification-only endpoint).  For every
artifact whose content field is found and decodes to non-empty bytes, the
per-document step of the batch endpoints and the async task hits the
`AttributeError`, which the per-document handler records as a
`DocumentError` of kind `PROCESSING_ERROR`; consequently no artifact
processed through the batch loop can ever produce a `ProcessedDocument`
success. -/
theorem claim_C2_missing_methods :
    documentProcessorHasAttr "clasificar_y_procesar" = false ∧
    documentProcessorHasAttr "clasificar" = false ∧
    (∀ (decode : String → Except PyError (List Nat)) (i : Nat) (doc : SgdDoc)
        (raw : String) (bs : List Nat),
      contentFieldCandidates.findSome? doc.lookup = some raw →
      decode raw = .ok bs → bs ≠ [] →
      processOneDoc decode i doc =
        .fail ⟨docDisplayName doc i,
               pyErrorMessage (.attributeError "DocumentProcessor" "clasificar_y_procesar"),
               "PROCESSING_ERROR"⟩) ∧
    (∀ (decode : String → Except PyError (List Nat)) (docs : List SgdDoc)
        (elapsed : ℚ) (fromCache : Bool),
      (procesarDespachoBatch decode docs elapsed fromCache).exitosos = []) := by
  refine ⟨by decide, by decide, ?_, ?_⟩
  · intro decode i doc raw bs hf hd hb
    unfold processOneDoc
    cases hfc : contentFieldCandidates.findSome? doc.lookup with
    | none => rw [hf] at hfc; exact absurd hfc (by simp)
    | some raw2 =>
      rw [hf] at hfc
      injection hfc with hraw
      subst hraw
      simp [hd, hb, callClasificarYProcesar_error, List.isEmpty_iff]
  · intro decode docs elapsed fromCache
    rw [procesarDespachoBatch_exitosos, runBatchGo_fst_nil]

/-- Witness for C2: a concrete artifact with a `documento` field whose
decode yields one byte is recorded as a `PROCESSING_ERROR` failure. -/
theorem claim_C2_witness :
    processOneDoc (fun _ => .ok [37]) 0 [("documento", "JVBERi0=")] =
      .fail ⟨"doc_0",
             pyErrorMessage (.attributeError "DocumentProcessor" "clasificar_y_procesar"),
             "PROCESSING_ERROR"⟩ :=
  claim_C2_missing_methods.2.2.1 (fun _ => .ok [37]) 0 [("documento", "JVBERi0=")]
    "JVBERi0=" [37] (by decide) rfl (by decide)

/-- Claim C3.  For every batch result produced by the orchestrator loop over
a non-empty fetched listing: successes plus failures equals the number of
artifacts fetched; the status is `SUCCESS` iff the failures list is empty;
`FAILED` iff the successes list is empty; `PARTIAL` in every other case. -/
theorem claim_C3_batch_invariant (decode : String → Except PyError (List Nat))
    (docs : List SgdDoc) (elapsed : ℚ) (fromCache : Bool) (hne : docs ≠ []) :
    ((procesarDespachoBatch decode docs elapsed fromCache).exitosos.length +
       (procesarDespachoBatch decode docs elapsed fromCache).fallidos.length
       = docs.length) ∧
    ((procesarDespachoBatch decode docs elapsed fromCache).status = .SUCCESS ↔
       (procesarDespachoBatch decode docs elapsed fromCache).fallidos = []) ∧
    ((procesarDespachoBatch decode docs elapsed fromCache).status = .FAILED ↔
       (procesarDespachoBatch decode docs elapsed fromCache).exitosos = []) ∧
    ((procesarDespachoBatch decode docs elapsed fromCache).fallidos ≠ [] →
       (procesarDespachoBatch decode docs elapsed fromCache).exitosos ≠ [] →
       (procesarDespachoBatch decode docs elapsed fromCache).status = .PARTIAL) := by
  have hlen := runBatchGo_length decode 0 docs
  have hpos : 0 < docs.length := List.length_pos.mpr hne
  rw [procesarDespachoBatch_exitosos, procesarDespachoBatch_fallidos,
    procesarDespachoBatch_status]
  refine ⟨hlen, ?_, ?_, ?_⟩
  · rw [computeStatus_success_iff, List.length_eq_zero]
  · rw [computeStatus_failed_iff _ _ (by omega), List.length_eq_zero]
  · intro hfne hsne
    exact computeStatus_partial _ _
      (Nat.pos_iff_ne_zero.mp (List.length_pos.mpr hsne))
      (Nat.pos_iff_ne_zero.mp (List.length_pos.mpr hfne))

/-- Witness for C3: a singleton listing satisfies the hypothesis and the
count invariant. -/
theorem claim_C3_witness :
    ([[("documento", "x")]] : List SgdDoc) ≠ [] ∧
    ((procesarDespachoBatch (fun _ => .ok [1]) [[("documento", "x")]] 0 false).exitosos.length +
       (procesarDespachoBatch (fun _ => .ok [1]) [[("documento", "x")]] 0 false).fallidos.length
       = 1) :=
  ⟨by decide,
   (claim_C3_batch_invariant (fun _ => .ok [1]) [[("documento", "x")]] 0 false (by decide)).1⟩

/-- Claim C4, counterexample.  The claim asserts that a degraded
classification (external error, absent or unmapped label) carries a fixed
*low*-confidence value.  In the code the confidence attached to every
`ClassificationResult` is the hard-coded `0.95` of
`document_processor.py` line 34: on a one-page document whose external
classification call fails, the pipeline produces exactly the same
`ClassificationResult` — type `INVOICE`, confidence `0.95` — as on a page
confidently labelled `invoice` with confidence `0.99`, and `0.95` is not a
low value (`¬ 0.95 ≤ 1/2`). -/
theorem claim_C4_counterexample :
    (process_document (α := Unit) (β := Unit) [()] (fun _ => ())
        (fun _ => .error "timeout") (fun _ _ => .error "down") "doc" 0).classification =
      [⟨1, DocumentType.INVOICE, 95/100⟩] ∧
    (process_document (α := Unit) (β := Unit) [()] (fun _ => ())
        (fun _ => .document "invoice" (99/100)) (fun _ _ => .error "down") "doc" 0).classification =
      [⟨1, DocumentType.INVOICE, 95/100⟩] ∧
    ¬ ((95 : ℚ) / 100 ≤ 1 / 2) := by
  refine ⟨rfl, rfl, by norm_num⟩

/-- Claim C4, amended.  For every page container the classifier adapter
never raises (it is a total function of the external outcome): an external
label outside the closed `DocumentType` set, an absent label, and any error
from the external capability all resolve to the default
`DocumentType.INVOICE`; and the resulting `ClassificationResult` carries
the same fixed confidence `0.95` that every classification — degraded or
not — carries. -/
theorem claim_C4_amended (msg : String) (dt : String) (conf : ℚ)
    (hunmapped : typeMapping.lookup dt = none) :
    classify_document (.error msg) = DocumentType.INVOICE ∧
    classify_document .noDocuments = DocumentType.INVOICE ∧
    classify_document (.document dt conf) = DocumentType.INVOICE ∧
    (∀ (α β : Type) (separate : List α) (merge : List α → β)
       (classifyPage : α → ClassifyOutcome) (analyze : String → β → ExtractOutcome)
       (docId : String) (elapsed : ℚ),
      ∀ c ∈ (process_document separate merge classifyPage analyze docId elapsed).classification,
        c.confidence = 95 / 100) := by
  refine ⟨rfl, rfl, ?_, ?_⟩
  · simp [classify_document, hunmapped]
  · intro α β separate merge classifyPage analyze docId elapsed c hc
    simp only [process_document, List.mem_map] at hc
    obtain ⟨pi, _, rfl⟩ := hc
    rfl

/-- Witness for the amended C4: `"unknown"` is outside the mapping and
resolves to `INVOICE`. -/
theorem claim_C4_witness :
    typeMapping.lookup "unknown" = none ∧
    classify_document (.document "unknown" 0) = DocumentType.INVOICE :=
  ⟨by decide, (claim_C4_amended "timeout" "unknown" 0 (by decide)).2.2.1⟩

/-- Claim C5.  For every artifact whose container parses to zero pages, the
pipeline's `process_document` returns a `ProcessedDocument` whose
classification and extraction lists are both empty — totally, without
raising. -/
theorem claim_C5_zero_pages {α β : Type} (merge : List α → β)
    (classifyPage : α → ClassifyOutcome) (analyze : String → β → ExtractOutcome)
    (documentId : String) (elapsed : ℚ) :
    process_document ([] : List α) merge classifyPage analyze documentId elapsed =
      { document_id := documentId
        classification := []
        extraction := []
        processing_time := elapsed } := rfl

/-- Claim C6.  For every cache operation (get, set, invalidate, TTL query), a
failure of the underlying store never propagates: each embedded operation
is a total function (the Python `except` handlers are translated into the
error branches), and on a store failure the caller observes exactly the
miss outcome — `get` returns `None` (the same value as `.ok none`), `set`
and `invalidate` return normally leaving the store content as it was, the
TTL query returns `0`, and `SGDService.get_despacho_documents` proceeds to
the live fetch exactly as it does on a miss. -/
theorem claim_C6_cache_best_effort :
    (∀ msg, cacheGetDespachoDocuments (.error msg) = none ∧
       cacheGetDespachoDocuments (.error msg) = cacheGetDespachoDocuments (.ok none)) ∧
    (∀ msg, cacheGetProcessingResult (.error msg) = none ∧
       cacheGetProcessingResult (.error msg) = cacheGetProcessingResult (.ok none)) ∧
    (∀ (store : CacheStore) (d : String) (docId : Option String) (ser : String),
       cacheSetProcessingResult false store d docId ser = store) ∧
    (∀ (store : CacheStore) (d : String),
       cacheInvalidateDespacho false store d = store) ∧
    (∀ msg, cacheGetTTL (.error msg) = 0 ∧ cacheGetTTL (.error msg) = cacheGetTTL (.ok (-2))) ∧
    (∀ (useCache : Bool) (msg : String) (live : Except PyError (List SgdDoc)),
       sgdGetDespachoDocuments useCache (.error msg) live =
         sgdGetDespachoDocuments useCache (.ok none) live) := by
  refine ⟨fun msg => ⟨rfl, rfl⟩, fun msg => ⟨rfl, rfl⟩,
    fun store d docId ser => rfl, fun store d => rfl, fun msg => ⟨rfl, rfl⟩, ?_⟩
  intro useCache msg live
  cases useCache <;> rfl

/-! ## Lemmas about the retry model -/

/-- When every attempt fails transiently, the run consumes the whole retry
budget: `i + fuel + 1` requests starting from attempt `i`, ending on a
transient outcome. -/
theorem runWithRetries_all_transient (attempts : Nat → AttemptOutcome)
    (h : ∀ j, isTransientOutcome (attempts j) = true) :
    ∀ (fuel i : Nat), (runWithRetries attempts i fuel).1 = i + fuel + 1 := by
  intro fuel
  induction fuel with
  | zero => intro i; rfl
  | succ m ih =>
    intro i
    unfold runWithRetries
    rw [if_pos (h i)]
    rw [ih (i + 1)]
    omega

/-- A non-transient first attempt ends the run at once: one request,
surrendering that outcome. -/
theorem runWithRetries_first_final (attempts : Nat → AttemptOutcome) (fuel : Nat)
    (h : isTransientOutcome (attempts 0) = false) :
    runWithRetries attempts 0 fuel = (1, attempts 0) := by
  cases fuel with
  | zero => rfl
  | succ m =>
    unfold runWithRetries
    rw [if_neg (by simp [h])]

/-- Claim C7.  Document-source fetches: transient failures (timeout,
connection error, HTTP 429/500/502/503/504) are retried up to the
configured maximum (`sgd_max_retries = 3` further requests, so an
all-transient run issues exactly `sgdMaxRetries + 1` requests) with
exponential backoff; an HTTP 404 is terminal on the first request, raised
as the not-found error, with no retry; any other HTTP error is terminal
after the first request. -/
theorem claim_C7_retry_policy (attempts : Nat → AttemptOutcome) (d : String) (code : Nat) :
    ((∀ j, isTransientOutcome (attempts j) = true) →
      (runWithRetries attempts 0 sgdMaxRetries).1 = sgdMaxRetries + 1) ∧
    (∀ fuel, isTransientOutcome (attempts 0) = true →
      runWithRetries attempts 0 (fuel + 1) = runWithRetries attempts 1 fuel) ∧
    (attempts 0 = .httpStatus 404 →
      (runWithRetries attempts 0 sgdMaxRetries).1 = 1 ∧
      sgdFetch d attempts = .error (.notFound d)) ∧
    (attempts 0 = .httpStatus code → transientStatuses.contains code = false →
      code ≠ 404 →
      (runWithRetries attempts 0 sgdMaxRetries).1 = 1 ∧
      sgdFetch d attempts = .error (.httpError code)) ∧
    (∀ k, 1 ≤ k → backoffSeconds 1 (k + 1) = 2 * backoffSeconds 1 k) := by
  refine ⟨?_, ?_, ?_, ?_, ?_⟩
  · intro h
    rw [runWithRetries_all_transient attempts h sgdMaxRetries 0]
    omega
  · intro fuel h
    unfold runWithRetries
    rw [if_pos h]
    cases fuel <;> rfl
  · intro h
    have ht : isTransientOutcome (attempts 0) = false := by rw [h]; rfl
    have hr := runWithRetries_first_final attempts sgdMaxRetries ht
    refine ⟨by rw [hr], ?_⟩
    unfold sgdFetch
    rw [hr, h]
    rfl
  · intro h hnt hne
    have ht : isTransientOutcome (attempts 0) = false := by rw [h]; exact hnt
    have hr := runWithRetries_first_final attempts sgdMaxRetries ht
    refine ⟨by rw [hr], ?_⟩
    unfold sgdFetch
    rw [hr, h]
    simp [hne]
  · intro k hk
    obtain ⟨m, rfl⟩ := Nat.exists_eq_add_of_le hk
    simp only [backoffSeconds]
    have h1 : 1 + m + 1 - 1 = m + 1 := by omega
    have h2 : 1 + m - 1 = m := by omega
    rw [h1, h2, pow_succ]
    ring

/-- Witness for C7: with every attempt timing out, the session issues
exactly `sgdMaxRetries + 1 = 4` requests. -/
theorem claim_C7_witness :
    (runWithRetries (fun _ => .timeout) 0 sgdMaxRetries).1 = sgdMaxRetries + 1 :=
  (claim_C7_retry_policy (fun _ => .timeout) "42" 403).1 (fun _ => rfl)

/-! ## Lemmas about the published-progress traces -/

/-- Polls made while updates are still being published see the published
value. -/
theorem jobTrace_lt (pre : List ℚ) (term : TaskPhase) (t : Nat)
    (h : t < pre.length) :
    jobTrace pre term t = .processing (pre.get ⟨t, h⟩) := by
  unfold jobTrace
  rw [dif_pos h]

/-- Polls made after the last published update see the terminal phase. -/
theorem jobTrace_ge (pre : List ℚ) (term : TaskPhase) (t : Nat)
    (h : pre.length ≤ t) :
    jobTrace pre term t = term := by
  unfold jobTrace
  rw [dif_neg (by omega)]

/-- A sorted published-progress list yields monotone pre-terminal polls. -/
theorem monotone_polls_of_pairwise (pre : List ℚ)
    (hp : List.Pairwise (· ≤ ·) pre) (term : TaskPhase) (s t : Nat)
    (hst : s ≤ t) (ht : t < pre.length) :
    polledProgress (jobTrace pre term s) ≤ polledProgress (jobTrace pre term t) := by
  have hs : s < pre.length := lt_of_le_of_lt hst ht
  rw [jobTrace_lt pre term s hs, jobTrace_lt pre term t ht]
  simp only [polledProgress]
  rcases lt_or_eq_of_le hst with h | h
  · exact List.pairwise_iff_get.mp hp ⟨s, hs⟩ ⟨t, ht⟩ h
  · subst h
    exact le_refl _

/-- The value the batch task publishes at update `j` is `(j / n) * 100`. -/
theorem sgdPublishedProgress_get (n : Nat) (j : Nat)
    (h : j < (sgdPublishedProgress n).length) :
    (sgdPublishedProgress n).get ⟨j, h⟩ = ((j : ℚ) / (n : ℚ)) * 100 := by
  cases j with
  | zero =>
    simp only [sgdPublishedProgress, List.get_eq_getElem, List.getElem_cons_zero]
    norm_num
  | succ m =>
    simp only [sgdPublishedProgress, List.get_eq_getElem, List.getElem_cons_succ,
      List.getElem_map, List.getElem_range]

/-- The batch task's published progress is monotone. -/
theorem sgdPublishedProgress_pairwise (n : Nat) :
    List.Pairwise (· ≤ ·) (sgdPublishedProgress n) := by
  rw [List.pairwise_iff_get]
  intro i j hij
  rw [sgdPublishedProgress_get n i.1 i.2, sgdPublishedProgress_get n j.1 j.2]
  rcases Nat.eq_zero_or_pos n with hn | hn
  · subst hn
    simp
  · have hn' : (0 : ℚ) < (n : ℚ) := by exact_mod_cast hn
    have hij' : ((i.1 : ℚ)) ≤ ((j.1 : ℚ)) := by
      exact_mod_cast Nat.le_of_lt hij
    exact mul_le_mul_of_nonneg_right ((div_le_div_right hn').mpr hij') (by norm_num)

/-- Claim C8, counterexample.  `process_individual_document` publishes
progress `0` then `50` and then fails (its `clasificar_y_procesar` call
raises `AttributeError` — see C2), and the status poller reports a failed
task as `progress = 0.0` (`routers/sgd.py` line 349).  Polling this real
execution at time 1 (mid-processing) and at time 2 (the job having reached
the terminal Failed state) returns `50` then `0`: the published progress
value decreases at the transition into the terminal state, so it is not
monotonically non-decreasing from the start of execution up to the
terminal state inclusive. -/
theorem claim_C8_counterexample :
    polledProgress (jobTrace (individualPublishedProgress.take 2) .failed 1) = 50 ∧
    polledProgress (jobTrace (individualPublishedProgress.take 2) .failed 2) = 0 ∧
    ¬ (polledProgress (jobTrace (individualPublishedProgress.take 2) .failed 1) ≤
        polledProgress (jobTrace (individualPublishedProgress.take 2) .failed 2)) := by
  refine ⟨rfl, rfl, by decide⟩

/-- Claim C8, amended.  For both task shapes, the published progress is
monotonically non-decreasing across polls made strictly before the job
reaches a terminal state, and after a terminal state is reached every poll
returns one unchanging value; however a job that reaches Failed publishes
`0` from then on regardless of the progress published before, so the value
can decrease at the transition into Failed (see the counterexample). -/
theorem claim_C8_amended (n : Nat) (hn : 0 < n) (term : TaskPhase) (k : Nat) :
    (∀ s t, s ≤ t → t < (sgdPublishedProgress n).length →
      polledProgress (jobTrace (sgdPublishedProgress n) term s) ≤
        polledProgress (jobTrace (sgdPublishedProgress n) term t)) ∧
    (∀ s t, (sgdPublishedProgress n).length ≤ s →
      (sgdPublishedProgress n).length ≤ t →
      polledProgress (jobTrace (sgdPublishedProgress n) term s) =
        polledProgress (jobTrace (sgdPublishedProgress n) term t)) ∧
    (∀ s t, s ≤ t → t < (individualPublishedProgress.take k).length →
      polledProgress (jobTrace (individualPublishedProgress.take k) term s) ≤
        polledProgress (jobTrace (individualPublishedProgress.take k) term t)) ∧
    (∀ s t, (individualPublishedProgress.take k).length ≤ s →
      (individualPublishedProgress.take k).length ≤ t →
      polledProgress (jobTrace (individualPublishedProgress.take k) term s) =
        polledProgress (jobTrace (individualPublishedProgress.take k) term t)) ∧
    (∀ (pre : List ℚ) (t : Nat), pre.length ≤ t →
      polledProgress (jobTrace pre .failed t) = 0) := by
  refine ⟨?_, ?_, ?_, ?_, ?_⟩
  · intro s t hst ht
    exact monotone_polls_of_pairwise _ (sgdPublishedProgress_pairwise n) term s t hst ht
  · intro s t hs ht
    rw [jobTrace_ge _ _ _ hs, jobTrace_ge _ _ _ ht]
  · intro s t hst ht
    refine monotone_polls_of_pairwise _ ?_ term s t hst ht
    exact List.Pairwise.sublist (List.take_sublist k individualPublishedProgress)
      (by decide)
  · intro s t hs ht
    rw [jobTrace_ge _ _ _ hs, jobTrace_ge _ _ _ ht]
  · intro pre t hlen
    rw [jobTrace_ge _ _ _ hlen]
    rfl

/-- Witness for the amended C8: a 4-document batch poll at times 0 ≤ 1,
both pre-terminal, is non-decreasing. -/
theorem claim_C8_witness :
    0 < 4 ∧
    polledProgress (jobTrace (sgdPublishedProgress 4) .failed 0) ≤
      polledProgress (jobTrace (sgdPublishedProgress 4) .failed 1) :=
  ⟨by decide,
   (claim_C8_amended 4 (by decide) .failed 2).1 0 1 (by decide) (by decide)⟩

/-! ## Lemmas about the store content -/

/-- A freshly written key reads back its value. -/
theorem cacheLookup_setex_self (store : CacheStore) (k v : String) :
    cacheLookup (cacheSetex store k v) k = some v := by
  simp [cacheLookup, cacheSetex]

/-- Claim C9.  For every completed batch run, the computed result is written
to the result cache key exactly when its status is not `FAILED`, and a
batch ending `FAILED` performs no cache write at all (the store content is
untouched). -/
theorem claim_C9_persist_unless_failed (d : String) (r : ProcessingResult)
    (ser : String) (store : CacheStore)
    (hfresh : cacheLookup store (generateKey "result" d) = none) :
    (cacheLookup (persistBatchResult d r ser store) (generateKey "result" d)
       = some ser ↔ r.status ≠ ProcessingStatus.FAILED) ∧
    (r.status = ProcessingStatus.FAILED → persistBatchResult d r ser store = store) := by
  by_cases hs : r.status = ProcessingStatus.FAILED
  · rw [persistBatchResult, if_neg (not_not_intro hs)]
    constructor
    · rw [hfresh]
      simp [hs]
    · intro _
      rfl
  · rw [persistBatchResult, if_pos hs]
    constructor
    · have hkey : cacheSetProcessingResult true store d none ser
          = cacheSetex store (generateKey "result" d) ser := rfl
      rw [hkey, cacheLookup_setex_self]
      simp [hs]
    · intro hcontra
      exact absurd hcontra hs

/-- Witness for C9: a concrete `FAILED` batch result leaves the (empty)
store untouched. -/
theorem claim_C9_witness :
    cacheLookup [] (generateKey "result" "42") = none ∧
    persistBatchResult "42"
      { exitosos := []
        fallidos := [⟨"doc_0", "sin contenido", "MISSING_CONTENT"⟩]
        metadata := ⟨1, 0, 1, 0, [], false⟩
        status := .FAILED } "serialized" [] = [] :=
  ⟨rfl,
   (claim_C9_persist_unless_failed "42"
      { exitosos := []
        fallidos := [⟨"doc_0", "sin contenido", "MISSING_CONTENT"⟩]
        metadata := ⟨1, 0, 1, 0, [], false⟩
        status := .FAILED } "serialized" [] rfl).2 rfl⟩

/-- Claim C10.  `invalidate_despacho d` deletes exactly the listing key of
`d` and every key matching the bare prefix glob `cache:result:d*`; in
particular, invalidating despacho `"42"` also deletes the result entry of
the different despacho `"421"` (whose identifier merely begins with
`"42"`), while the listing key of despacho `"421"` survives. -/
theorem claim_C10_invalidate_scope :
    (∀ (store : CacheStore) (d : String) (kv : String × String),
      kv ∈ invalidateDespachoStore store d ↔
        kv ∈ store ∧ kv.1 ≠ generateKey "despacho" d ∧
          matchesStarPattern (generateKey "result" d) kv.1 = false) ∧
    invalidateDespachoStore
        [(generateKey "despacho" "42", "a"), (generateKey "result" "42", "b"),
         (generateKey "result" "421", "c"), (generateKey "despacho" "421", "d"),
         (generateKey "result" "5", "e")] "42"
      = [(generateKey "despacho" "421", "d"), (generateKey "result" "5", "e")] := by
  constructor
  · intro store d kv
    simp [invalidateDespachoStore, List.mem_filter, and_assoc]
    tauto
  · decide

end DocProc
